import Mathlib

/-!
Shallow embedding of the job-orchestration services of the
propter-optimis-app repository:

* `AnalyticsService` (src/unnamed/part_009): `createAnalysis`,
  `getAnalyses`, `getAnalysis`, `updateAnalysis`, `triggerProcessing`.
* `ExportService` (app/src/services/exportService.ts): `createExport`,
  `getExports`, `getExport`, `downloadExport`, `processExport`,
  `getFileNameForType`.

The Supabase tables `analyses` (src/unnamed/part_001) and `exports` are
modelled as lists of rows inside a `Store`; the PostgREST calls the
services make (`insert`, `update ... eq id`, `select ... order`) are
modelled as pure functions on the `Store`.  Timestamps are `Nat`,
statuses are the literal strings the code writes.  The `try`/`catch`
blocks around awaited calls are modelled by a `StepOutcome` oracle
saying whether the awaited body threw.
-/

namespace PropterOptimis

/-- One entry of the `events` array of the mock OpenStarLab result
(part_009, `triggerProcessing`).  The float `confidence` (0.95, 0.87) is
stored as an integer percentage. -/
structure DetectedEvent where
  timestamp : Nat
  type : String
  player : String
  confidencePct : Nat
deriving Repr, DecidableEq

/-- The `statistics` section of the mock result: possession / shots /
passes for home and away. -/
structure MatchStatistics where
  possessionHome : Nat
  possessionAway : Nat
  shotsHome : Nat
  shotsAway : Nat
  passesHome : Nat
  passesAway : Nat
deriving Repr, DecidableEq

/-- Placeholder payload for a `tactical_analysis` section
(types/index.ts `TacticalAnalysis`); only its presence matters here. -/
structure TacticalAnalysis where
  info : String
deriving Repr, DecidableEq

/-- Placeholder payload for a `player_evaluations` section. -/
structure PlayerEvaluations where
  info : String
deriving Repr, DecidableEq

/-- Placeholder payload for a `predictions` section. -/
structure PredictiveInsights where
  info : String
deriving Repr, DecidableEq

/-- Placeholder payload for a `confidence_scores` section. -/
structure ConfidenceScores where
  info : String
deriving Repr, DecidableEq

/-- A JSONB intelligence-result payload (`openstarlab_results` column).
Each top-level key of the JSON object is an `Option` field so that the
presence or absence of a section is expressible; `heatmapLen` stands for
the `heatmap.data` array (the code fills it with 100 random floats, so
only its length is modelled). -/
structure OpenStarLabResults where
  events : Option (List DetectedEvent)
  statistics : Option MatchStatistics
  heatmapLen : Option Nat
  tactical_analysis : Option TacticalAnalysis
  player_evaluations : Option PlayerEvaluations
  predictions : Option PredictiveInsights
  confidence_scores : Option ConfidenceScores
deriving Repr, DecidableEq

/-- A row of the `analyses` table (src/unnamed/part_001), with the
columns the services read or write.  `progress_percentage` is `Int`
(SQL INTEGER) with its CHECK constraint modelled in `updateAnalysis`
and defaulted to 0 on insert.  `updated_at` records the extra field the
service adds to every update payload. -/
structure AnalysisRow where
  id : String
  video_id : String
  analysis_intent : String
  openstarlab_results : Option OpenStarLabResults
  ai_insights : Option String
  status : String
  processing_time : Option Nat
  progress_percentage : Int
  current_step : Option String
  started_at : Option Nat
  completed_at : Option Nat
  error_message : Option String
  created_at : Nat
  updated_at : Option Nat
deriving Repr, DecidableEq

/-- A row of the `exports` table, with the columns `ExportService`
reads or writes (`Export` in types/index.ts). -/
structure ExportRow where
  id : String
  analysis_id : String
  export_type : String
  status : String
  file_path : Option String
  created_at : Nat
deriving Repr, DecidableEq

/-- The database state the two services operate on.  `videos` keeps
just the ids of existing `videos` rows, enough for the foreign-key
checks on `analyses.video_id` and `exports.analysis_id`. -/
structure Store where
  videos : List String
  analyses : List AnalysisRow
  exports : List ExportRow
deriving Repr, DecidableEq

/-- Result shape of `AnalyticsService.createAnalysis`:
`{ success, analysisId?, error? }`. -/
structure CreateResult where
  success : Bool
  analysisId : Option String
  error : Option String
deriving Repr, DecidableEq

/-- Result shape of `AnalyticsService.updateAnalysis`:
`{ success, error? }`. -/
structure UpdateResult where
  success : Bool
  error : Option String
deriving Repr, DecidableEq

/-- Result shape of `ExportService.createExport`:
`{ success, exportId?, error? }`. -/
structure ExportCreateResult where
  success : Bool
  exportId : Option String
  error : Option String
deriving Repr, DecidableEq

/-- Result shape of `ExportService.downloadExport`:
`{ success, url?, error? }`. -/
structure DownloadResult where
  success : Bool
  url : Option String
  error : Option String
deriving Repr, DecidableEq

/-- Whether an awaited body inside a `try` block threw; the payload of
`threw` is the thrown error's message/classification (the code never
inspects it). -/
inductive StepOutcome where
  | ok : StepOutcome
  | threw : String → StepOutcome
deriving Repr, DecidableEq

/-- The `Partial<Analysis>` update payload accepted by
`AnalyticsService.updateAnalysis`; `none` means the field is absent
from the payload. -/
structure AnalysisUpdate where
  status : Option String := none
  openstarlab_results : Option OpenStarLabResults := none
  ai_insights : Option String := none
  processing_time : Option Nat := none
  progress_percentage : Option Int := none
  current_step : Option String := none
  started_at : Option Nat := none
  completed_at : Option Nat := none
  error_message : Option String := none
deriving Repr, DecidableEq

/-- Overwrite an optional column when the payload provides a value. -/
def updOpt {α : Type} (new : Option α) (old : Option α) : Option α :=
  match new with
  | some v => some v
  | none => old

/-- Apply an update payload to one row, as the SQL `UPDATE ... SET`
generated from `{ ...updates, updated_at: new Date().toISOString() }`
does: provided fields overwrite, absent fields are kept, `updated_at`
is always set. -/
def applyUpdate (r : AnalysisRow) (u : AnalysisUpdate) (now : Nat) : AnalysisRow :=
  { r with
    status := u.status.getD r.status
    openstarlab_results := updOpt u.openstarlab_results r.openstarlab_results
    ai_insights := updOpt u.ai_insights r.ai_insights
    processing_time := updOpt u.processing_time r.processing_time
    progress_percentage := u.progress_percentage.getD r.progress_percentage
    current_step := updOpt u.current_step r.current_step
    started_at := updOpt u.started_at r.started_at
    completed_at := updOpt u.completed_at r.completed_at
    error_message := updOpt u.error_message r.error_message
    updated_at := some now }

/-- The CHECK constraint on `analyses.progress_percentage`
(src/unnamed/part_001): `progress_percentage >= 0 AND
progress_percentage <= 100`. -/
def progressCheck (r : AnalysisRow) : Bool :=
  decide (0 ≤ r.progress_percentage) && decide (r.progress_percentage ≤ 100)

/-- `AnalyticsService.updateAnalysis`: a blind
`update({...updates, updated_at}).eq('id', id)`.  The database applies
the payload to every row matching `id`; if a modified row would violate
the CHECK constraint the statement errors and nothing changes,
otherwise it succeeds (also when no row matches). -/
def updateAnalysis (s : Store) (id : String) (u : AnalysisUpdate) (now : Nat) :
    UpdateResult × Store :=
  if s.analyses.all (fun r => r.id ≠ id || progressCheck (applyUpdate r u now)) then
    ({ success := true, error := none },
     { s with analyses := s.analyses.map (fun r => if r.id = id then applyUpdate r u now else r) })
  else
    ({ success := false, error := some "progress_percentage check violated" }, s)

/-- The row built by the `insert` in `createAnalysis`: the payload sets
`video_id`, `analysis_intent`, `status: 'pending'`, `created_at`; every
other column takes its table default (`progress_percentage` defaults to
0, the rest to NULL). -/
def insertedAnalysisRow (newId videoId intent : String) (now : Nat) : AnalysisRow :=
  { id := newId
    video_id := videoId
    analysis_intent := intent
    openstarlab_results := none
    ai_insights := none
    status := "pending"
    processing_time := none
    progress_percentage := 0
    current_step := none
    started_at := none
    completed_at := none
    error_message := none
    created_at := now
    updated_at := none }

/-- The database `insert` into `analyses`: succeeds iff the foreign key
`video_id REFERENCES videos(id)` resolves and the fresh primary key is
unused; no other condition is checked. -/
def insertAnalysis (s : Store) (newId videoId intent : String) (now : Nat) :
    Option AnalysisRow × Store :=
  if s.videos.contains videoId && !(s.analyses.any (fun r => r.id = newId)) then
    let row := insertedAnalysisRow newId videoId intent now
    (some row, { s with analyses := s.analyses ++ [row] })
  else
    (none, s)

/-- The mock OpenStarLab result hard-coded in
`AnalyticsService.triggerProcessing` (part_009): two events, a
`statistics` object and a `heatmap` with 100 entries.  It contains no
`tactical_analysis`, `player_evaluations`, `predictions` or
`confidence_scores` key. -/
def mockResults : OpenStarLabResults :=
  { events := some
      [ { timestamp := 120, type := "goal", player := "Player #10", confidencePct := 95 }
      , { timestamp := 340, type := "tackle", player := "Player #5", confidencePct := 87 } ]
    statistics := some
      { possessionHome := 65, possessionAway := 35
        shotsHome := 12, shotsAway := 8
        passesHome := 450, passesAway := 320 }
    heatmapLen := some 100
    tactical_analysis := none
    player_evaluations := none
    predictions := none
    confidence_scores := none }

/-- Stand-in for the multi-line `mockInsights` markdown string of
`triggerProcessing`; its exact product-copy text is irrelevant to every
property proved here, only that some insights string is stored. -/
def mockInsights : String := "Analysis Summary (mock insights text)"

/-- The update payload of the first step of `triggerProcessing`:
`updateAnalysis(analysisId, { status: 'processing' })`. -/
def processingUpdate : AnalysisUpdate := { status := some "processing" }

/-- The update payload of the `setTimeout` body of `triggerProcessing`:
`{ status: 'completed', openstarlab_results: mockResults, ai_insights:
mockInsights, processing_time: 15 }`.  It does not touch
`progress_percentage` or `completed_at`. -/
def completionUpdate : AnalysisUpdate :=
  { status := some "completed"
    openstarlab_results := some mockResults
    ai_insights := some mockInsights
    processing_time := some 15 }

/-- The update payload of the `catch` handler of `triggerProcessing`:
`updateAnalysis(analysisId, { status: 'failed' })` — no
`error_message` is written. -/
def failureUpdate : AnalysisUpdate := { status := some "failed" }

/-- `AnalyticsService.triggerProcessing`, run to quiescence.  On
`StepOutcome.ok` the body runs: one `processing` update followed by the
single simulated processing pass (the `setTimeout` callback) which
applies `completionUpdate`.  On `threw msg` the `catch` handler applies
`failureUpdate` and nothing else.  The returned `Nat` counts processing
passes begun by this run; the code starts exactly one in either case
and contains no retry logic. -/
def triggerProcessing (s : Store) (analysisId : String) (tStart tDone : Nat)
    (outcome : StepOutcome) : Store × Nat :=
  match outcome with
  | .ok =>
    let s1 := (updateAnalysis s analysisId processingUpdate tStart).2
    let s2 := (updateAnalysis s1 analysisId completionUpdate tDone).2
    (s2, 1)
  | .threw _ =>
    ((updateAnalysis s analysisId failureUpdate tStart).2, 1)

/-- `AnalyticsService.createAnalysis`: inserts a `pending` row (no
duplicate-active-job check of any kind), then calls
`triggerProcessing` on the new id; returns `{ success: true,
analysisId }` whenever the insert succeeded.  The third component is
the processing-pass count from `triggerProcessing`. -/
def createAnalysis (s : Store) (newId : String) (now tDone : Nat)
    (videoId intent : String) (outcome : StepOutcome) :
    CreateResult × Store × Nat :=
  match insertAnalysis s newId videoId intent now with
  | (none, s1) =>
    ({ success := false, analysisId := none, error := some "insert error" }, s1, 0)
  | (some row, s1) =>
    let (s2, n) := triggerProcessing s1 row.id now tDone outcome
    ({ success := true, analysisId := some row.id, error := none }, s2, n)

/-- `AnalyticsService.getAnalysis`: `select ... eq('id', id).single()`,
returning the row with the given id, if any. -/
def getAnalysis (s : Store) (id : String) : Option AnalysisRow :=
  s.analyses.find? (fun r => r.id = id)

/-- Rows ordered newest first: `order('created_at', { ascending:
false })`. -/
def analysisNewerFirst (a b : AnalysisRow) : Prop :=
  b.created_at ≤ a.created_at

instance : DecidableRel analysisNewerFirst :=
  fun a b => Nat.decLe b.created_at a.created_at

instance : IsTotal AnalysisRow analysisNewerFirst :=
  ⟨fun a b => Nat.le_total b.created_at a.created_at⟩

instance : IsTrans AnalysisRow analysisNewerFirst :=
  ⟨fun _ _ _ h1 h2 => Nat.le_trans h2 h1⟩

/-- `AnalyticsService.getAnalyses` (Supabase branch): select all
`analyses` rows ordered by `created_at` descending. -/
def getAnalyses (s : Store) : List AnalysisRow :=
  List.insertionSort analysisNewerFirst s.analyses

/-- Rows of `exports` ordered newest first. -/
def exportNewerFirst (a b : ExportRow) : Prop :=
  b.created_at ≤ a.created_at

instance : DecidableRel exportNewerFirst :=
  fun a b => Nat.decLe b.created_at a.created_at

instance : IsTotal ExportRow exportNewerFirst :=
  ⟨fun a b => Nat.le_total b.created_at a.created_at⟩

instance : IsTrans ExportRow exportNewerFirst :=
  ⟨fun _ _ _ h1 h2 => Nat.le_trans h2 h1⟩

/-- `ExportService.getExports`: select `exports` ordered by
`created_at` descending, optionally restricted by
`eq('analysis_id', analysisId)`. -/
def getExports (s : Store) (analysisId : Option String) : List ExportRow :=
  let sorted := List.insertionSort exportNewerFirst s.exports
  match analysisId with
  | some aid => sorted.filter (fun r => r.analysis_id = aid)
  | none => sorted

/-- `ExportService.getExport`: the `exports` row with the given id. -/
def getExport (s : Store) (id : String) : Option ExportRow :=
  s.exports.find? (fun r => r.id = id)

/-- The row built by the `insert` in `createExport`: payload sets
`analysis_id`, `export_type`, `status: 'pending'`, `created_at`;
`file_path` stays NULL. -/
def insertedExportRow (newId analysisId exportType : String) (now : Nat) : ExportRow :=
  { id := newId
    analysis_id := analysisId
    export_type := exportType
    status := "pending"
    file_path := none
    created_at := now }

/-- The database `insert` into `exports`: succeeds iff the foreign key
`analysis_id REFERENCES analyses(id)` resolves and the fresh primary
key is unused; the referenced analysis's status is not examined. -/
def insertExport (s : Store) (newId analysisId exportType : String) (now : Nat) :
    Option ExportRow × Store :=
  if s.analyses.any (fun r => r.id = analysisId) && !(s.exports.any (fun r => r.id = newId)) then
    let row := insertedExportRow newId analysisId exportType now
    (some row, { s with exports := s.exports ++ [row] })
  else
    (none, s)

/-- Update payload for the `exports` table (`status` and `file_path`
are the only columns `processExport` writes). -/
structure ExportUpdate where
  status : Option String := none
  file_path : Option String := none
deriving Repr, DecidableEq

/-- Apply an `ExportUpdate` payload to one `exports` row. -/
def applyExportUpdate (r : ExportRow) (u : ExportUpdate) : ExportRow :=
  { r with
    status := u.status.getD r.status
    file_path := updOpt u.file_path r.file_path }

/-- `update(...).eq('id', id)` on the `exports` table. -/
def updateExports (s : Store) (id : String) (u : ExportUpdate) : Store :=
  { s with exports := s.exports.map (fun r => if r.id = id then applyExportUpdate r u else r) }

/-- `ExportService.getFileNameForType`, with the
`new Date().toISOString().split('T')[0]` date string passed in. -/
def getFileNameForType (exportType dateStr : String) : String :=
  match exportType with
  | "video_clips" => "highlights-" ++ dateStr ++ ".mp4"
  | "pdf_report" => "analysis-report-" ++ dateStr ++ ".pdf"
  | "csv_data" => "match-data-" ++ dateStr ++ ".csv"
  | "full_package" => "complete-analysis-" ++ dateStr ++ ".zip"
  | _ => "export-" ++ dateStr ++ ".file"

/-- `ExportService.processExport`, run to quiescence.  On `ok`: set
`status: 'generating'`, then the `setTimeout` body marks the row
`completed` with the mock file path — no artifact is rendered and the
referenced analysis is never consulted.  On `threw`: the `catch`
handler sets `status: 'failed'` with no error message column (the
`exports` table has none). -/
def processExport (s : Store) (exportId exportType dateStr : String)
    (outcome : StepOutcome) : Store :=
  match outcome with
  | .ok =>
    let s1 := updateExports s exportId { status := some "generating" }
    updateExports s1 exportId
      { status := some "completed"
        file_path := some ("exports/" ++ exportId ++ "/" ++ getFileNameForType exportType dateStr) }
  | .threw _ =>
    updateExports s exportId { status := some "failed" }

/-- `ExportService.createExport`: inserts a `pending` export row for
`analysisId` — with no check whatsoever of the referenced analysis's
status — then runs `processExport`; returns `{ success: true,
exportId }` whenever the insert succeeded. -/
def createExport (s : Store) (newId : String) (now : Nat)
    (analysisId exportType dateStr : String) (outcome : StepOutcome) :
    ExportCreateResult × Store :=
  match insertExport s newId analysisId exportType now with
  | (none, s1) =>
    ({ success := false, exportId := none, error := some "insert error" }, s1)
  | (some row, s1) =>
    ({ success := true, exportId := some row.id, error := none },
     processExport s1 row.id exportType dateStr outcome)

/-- `ExportService.downloadExport` with the Supabase storage
`createSignedUrl` collaborator passed in as `sign` (returning `none`
when no signed URL could be produced).  It only reads; the returned
`Store` is what the call leaves behind. -/
def downloadExport (s : Store) (sign : String → Option String) (exportId : String) :
    DownloadResult × Store :=
  match getExport s exportId with
  | none => ({ success := false, url := none, error := some "Export not found" }, s)
  | some r =>
    match r.file_path with
    | none => ({ success := false, url := none, error := some "Export not ready for download" }, s)
    | some p =>
      if r.status = "completed" then
        match sign p with
        | some u => ({ success := true, url := some u, error := none }, s)
        | none => ({ success := false, url := none, error := some "Could not generate download URL" }, s)
      else
        ({ success := false, url := none, error := some "Export not ready for download" }, s)

/-- Modelled from the spec: the minimal structural contract an
intelligence result must satisfy before `succeed` may apply — it "must
contain at least an events list, a tactical-analysis object, a
player-evaluations object, and confidence scores".  No such check
exists anywhere in the source; this definition exists only to be
compared against what the code stores. -/
def specStructuralContract (r : OpenStarLabResults) : Bool :=
  r.events.isSome && r.tactical_analysis.isSome &&
    r.player_evaluations.isSome && r.confidence_scores.isSome

/-- A job status counted as active by the spec (`Pending` or
`Processing`). -/
def isActiveStatus (st : String) : Bool :=
  st = "pending" || st = "processing"

/-- A job status counted as terminal by the spec. -/
def isTerminalStatus (st : String) : Bool :=
  st = "completed" || st = "failed" || st = "cancelled"

/-! ### Concrete fixtures used by counterexamples and witnesses -/

/-- A store holding one ready video `v1` and nothing else. -/
def store0 : Store := { videos := ["v1"], analyses := [], exports := [] }

/-- An analysis row for video `v1` that is still `processing` at
progress 50. -/
def procAnalysisRow : AnalysisRow :=
  { id := "a1"
    video_id := "v1"
    analysis_intent := "full_match"
    openstarlab_results := none
    ai_insights := none
    status := "processing"
    processing_time := none
    progress_percentage := 50
    current_step := none
    started_at := some 1
    completed_at := none
    error_message := none
    created_at := 1
    updated_at := some 1 }

/-- A store in which video `v1` has the active (processing) analysis
`a1`. -/
def storeWithActive : Store :=
  { videos := ["v1"], analyses := [procAnalysisRow], exports := [] }

/-- A `completed` analysis row for video `v1`. -/
def completedRow : AnalysisRow :=
  { id := "a1"
    video_id := "v1"
    analysis_intent := "full_match"
    openstarlab_results := some mockResults
    ai_insights := some mockInsights
    status := "completed"
    processing_time := some 15
    progress_percentage := 100
    current_step := none
    started_at := some 1
    completed_at := some 3
    error_message := none
    created_at := 1
    updated_at := some 3 }

/-- A store whose only analysis is `completed`. -/
def storeCompleted : Store :=
  { videos := ["v1"], analyses := [completedRow], exports := [] }

/-- An export row still `pending`, with no file path. -/
def pendingExportRow : ExportRow :=
  { id := "e1"
    analysis_id := "a1"
    export_type := "pdf_report"
    status := "pending"
    file_path := none
    created_at := 4 }

/-- A `completed` export row with its file path set. -/
def completedExportRow : ExportRow :=
  { id := "e2"
    analysis_id := "a1"
    export_type := "csv_data"
    status := "completed"
    file_path := some "exports/e2/match-data-2025-01-01.csv"
    created_at := 5 }

/-- A store holding a completed analysis with one pending and one
completed export. -/
def storeExports : Store :=
  { videos := ["v1"]
    analyses := [completedRow]
    exports := [pendingExportRow, completedExportRow] }

/-! ### Helper lemmas about `updateAnalysis` -/

/-- `applyUpdate` never changes the row id. -/
theorem applyUpdate_id (r : AnalysisRow) (u : AnalysisUpdate) (now : Nat) :
    (applyUpdate r u now).id = r.id := rfl

/-- An update payload that does not mention `progress_percentage`
leaves the CHECK-constraint status of a row unchanged. -/
theorem progressCheck_applyUpdate (r : AnalysisRow) (u : AnalysisUpdate) (now : Nat)
    (h : u.progress_percentage = none) :
    progressCheck (applyUpdate r u now) = progressCheck r := by
  simp [progressCheck, applyUpdate, h]

/-- When every matching row still passes the CHECK constraint after the
payload is applied, the UPDATE succeeds and rewrites exactly the
matching rows. -/
theorem updateAnalysis_success (s : Store) (id : String) (u : AnalysisUpdate) (now : Nat)
    (hok : ∀ r ∈ s.analyses, r.id = id → progressCheck (applyUpdate r u now) = true) :
    (updateAnalysis s id u now).1.success = true ∧
    (updateAnalysis s id u now).2.analyses =
      s.analyses.map (fun r => if r.id = id then applyUpdate r u now else r) := by
  have hcond : (s.analyses.all fun r => r.id ≠ id || progressCheck (applyUpdate r u now)) = true := by
    rw [List.all_eq_true]
    intro r hr
    by_cases hid : r.id = id
    · simp [hok r hr hid]
    · simp [hid]
  constructor
  · simp only [updateAnalysis]
    rw [if_pos hcond]
  · simp only [updateAnalysis]
    rw [if_pos hcond]

/-- A payload not mentioning `progress_percentage` can never trip the
CHECK constraint on a store whose rows all satisfy it. -/
theorem check_ok_of_none (s : Store) (id : String) (u : AnalysisUpdate) (now : Nat)
    (h : u.progress_percentage = none)
    (hwf : s.analyses.all progressCheck = true) :
    ∀ r ∈ s.analyses, r.id = id → progressCheck (applyUpdate r u now) = true := by
  intro r hr _
  rw [progressCheck_applyUpdate r u now h]
  exact List.all_eq_true.mp hwf r hr

/-- `updateAnalysis` preserves the CHECK invariant of the store, for
every payload: a violating payload is rejected wholesale and any
applied payload passed the check. -/
theorem updateAnalysis_preserves_check (s : Store) (id : String) (u : AnalysisUpdate) (now : Nat)
    (hwf : s.analyses.all progressCheck = true) :
    (updateAnalysis s id u now).2.analyses.all progressCheck = true := by
  have hwf' : ∀ x ∈ s.analyses, progressCheck x = true := List.all_eq_true.mp hwf
  unfold updateAnalysis
  by_cases hcond : (s.analyses.all fun r => r.id ≠ id || progressCheck (applyUpdate r u now)) = true
  · rw [if_pos hcond]
    have hcond' := List.all_eq_true.mp hcond
    rw [List.all_eq_true]
    intro r hr
    rw [List.mem_map] at hr
    obtain ⟨r0, hr0, hmap⟩ := hr
    by_cases hid : r0.id = id
    · rw [← hmap]
      simp only [hid, if_true]
      have := hcond' r0 hr0
      simpa [hid] using this
    · rw [← hmap]
      simp only [hid, if_false]
      exact hwf' r0 hr0
  · rw [if_neg hcond]
    exact hwf

/-- Looking a row up after a per-id rewrite of the table returns the
rewritten row. -/
theorem find_after_update (l : List AnalysisRow) (id : String) (u : AnalysisUpdate) (now : Nat) :
    (l.map (fun r => if r.id = id then applyUpdate r u now else r)).find? (fun r => r.id = id)
      = (l.find? (fun r => r.id = id)).map (fun r => applyUpdate r u now) := by
  induction l with
  | nil => rfl
  | cons a l ih =>
    by_cases h : a.id = id
    · simp [List.find?_cons, h, applyUpdate_id]
    · simp [List.find?_cons, h, ih]

/-- `getAnalysis` after a successful `updateAnalysis`: the stored row
is exactly the payload applied to the previously stored row. -/
theorem getAnalysis_after_update (s : Store) (id : String) (u : AnalysisUpdate) (now : Nat)
    (r : AnalysisRow)
    (hok : ∀ x ∈ s.analyses, x.id = id → progressCheck (applyUpdate x u now) = true)
    (hget : getAnalysis s id = some r) :
    getAnalysis (updateAnalysis s id u now).2 id = some (applyUpdate r u now) := by
  obtain ⟨-, heq⟩ := updateAnalysis_success s id u now hok
  unfold getAnalysis at hget ⊢
  rw [heq, find_after_update, hget]
  rfl

/-! ### C1: export creation against a non-Completed analysis -/

/-- Claim C1 counterexample: with analysis `a1` still `processing`
(active, not completed), `createExport` does not fail validation — it
succeeds, issues the export id `e9`, and an ExportJob record is
created. -/
theorem C1_counterexample :
    isActiveStatus procAnalysisRow.status = true ∧
    (createExport storeWithActive "e9" 6 "a1" "pdf_report" "2025-01-01" StepOutcome.ok).1.success = true ∧
    (createExport storeWithActive "e9" 6 "a1" "pdf_report" "2025-01-01" StepOutcome.ok).1.exportId = some "e9" ∧
    (insertExport storeWithActive "e9" "a1" "pdf_report" 6).2.exports =
      [insertedExportRow "e9" "a1" "pdf_report" 6] := by
  decide

/-- Claim C1 amended: `createExport` never examines the referenced
analysis's status.  Whenever the analysis id exists (in any state) and
the fresh export id is unused, the insert succeeds, a `pending`
ExportJob row is appended and its id is returned; only when the
`analysis_id` foreign key does not resolve does the insert itself fail,
returning an error with no ExportJob row created. -/
theorem C1_amended (s : Store) (newId analysisId exportType dateStr : String)
    (now : Nat) (outcome : StepOutcome) :
    ((s.analyses.any fun r => r.id = analysisId) = true →
     (s.exports.any fun r => r.id = newId) = false →
     (createExport s newId now analysisId exportType dateStr outcome).1.success = true ∧
     (createExport s newId now analysisId exportType dateStr outcome).1.exportId = some newId ∧
     (insertExport s newId analysisId exportType now).2.exports =
       s.exports ++ [insertedExportRow newId analysisId exportType now] ∧
     (insertedExportRow newId analysisId exportType now).status = "pending") ∧
    ((s.analyses.any fun r => r.id = analysisId) = false →
     (createExport s newId now analysisId exportType dateStr outcome).1.success = false ∧
     (createExport s newId now analysisId exportType dateStr outcome).1.exportId = none ∧
     (createExport s newId now analysisId exportType dateStr outcome).2 = s) := by
  constructor
  · intro h1 h2
    have hcond : (s.analyses.any (fun r => r.id = analysisId) &&
        !(s.exports.any fun r => r.id = newId)) = true := by
      rw [h1, h2]; rfl
    refine ⟨?_, ?_, ?_, rfl⟩ <;>
      simp [createExport, insertExport, insertedExportRow, hcond]
  · intro h1
    have hcond : (s.analyses.any (fun r => r.id = analysisId) &&
        !(s.exports.any fun r => r.id = newId)) = false := by
      rw [h1]; rfl
    refine ⟨?_, ?_, ?_⟩ <;>
      simp [createExport, insertExport, hcond]

/-- Claim C1 witness: the amended statement instantiated on the
concrete stores — creating against a `processing` analysis succeeds,
creating against a missing analysis id fails with no record. -/
theorem C1_witness :
    (createExport storeWithActive "e9" 6 "a1" "pdf_report" "2025-01-01" StepOutcome.ok).1.success = true ∧
    (createExport store0 "e9" 6 "missing" "pdf_report" "2025-01-01" StepOutcome.ok).1.success = false := by
  exact ⟨((C1_amended storeWithActive "e9" "a1" "pdf_report" "2025-01-01" 6
            StepOutcome.ok).1 (by decide) (by decide)).1,
         ((C1_amended store0 "e9" "missing" "pdf_report" "2025-01-01" 6
            StepOutcome.ok).2 (by decide)).1⟩

/-! ### C2: duplicate active analysis jobs per video -/

/-- Claim C2 counterexample: with analysis `a1` for video `v1` still
`processing`, creating a second analysis for `v1` is not rejected —
`createAnalysis` succeeds, returns the new id `a2`, and right after the
insert the store holds two active AnalysisJobs for `v1`. -/
theorem C2_counterexample :
    isActiveStatus procAnalysisRow.status = true ∧
    (createAnalysis storeWithActive "a2" 5 6 "v1" "tactical_phase" StepOutcome.ok).1.success = true ∧
    (createAnalysis storeWithActive "a2" 5 6 "v1" "tactical_phase" StepOutcome.ok).1.analysisId = some "a2" ∧
    ((insertAnalysis storeWithActive "a2" "v1" "tactical_phase" 5).2.analyses.countP
      (fun r => isActiveStatus r.status && decide (r.video_id = "v1"))) = 2 := by
  decide

/-- Claim C2 amended: `createAnalysis` performs no duplicate-active-job
check of any kind — whenever the video exists and the fresh id is
unused, the insert succeeds and a new `pending` row for the same
`video_id` is appended (regardless of any active analysis already
stored for it), and `createAnalysis` reports success with the new
id. -/
theorem C2_amended (s : Store) (newId videoId intent : String) (now tDone : Nat)
    (outcome : StepOutcome)
    (hv : s.videos.contains videoId = true)
    (hfresh : (s.analyses.any fun r => r.id = newId) = false) :
    (insertAnalysis s newId videoId intent now).1 = some (insertedAnalysisRow newId videoId intent now) ∧
    (insertAnalysis s newId videoId intent now).2.analyses
      = s.analyses ++ [insertedAnalysisRow newId videoId intent now] ∧
    (insertedAnalysisRow newId videoId intent now).status = "pending" ∧
    (createAnalysis s newId now tDone videoId intent outcome).1.success = true ∧
    (createAnalysis s newId now tDone videoId intent outcome).1.analysisId = some newId := by
  have hmem : videoId ∈ s.videos := by simpa using hv
  have hnone : (∀ x ∈ s.analyses, ¬x.id = newId) = True := by
    refine eq_true ?_
    simpa using hfresh
  refine ⟨?_, ?_, rfl, ?_, ?_⟩ <;>
    simp [insertAnalysis, createAnalysis, insertedAnalysisRow, hmem, hnone]

/-- Claim C2 witness: the amended statement instantiated on the store
where `v1` already has the active analysis `a1`. -/
theorem C2_witness :
    (createAnalysis storeWithActive "a2" 5 6 "v1" "tactical_phase" StepOutcome.ok).1.success = true := by
  exact (C2_amended storeWithActive "a2" "v1" "tactical_phase" 5 6 StepOutcome.ok
    (by decide) (by decide)).2.2.2.1

/-! ### C3: monotonic progress -/

/-- Claim C3 counterexample: analysis `a1` is `processing` at progress
50; an update carrying progress 10 is neither rejected nor clamped —
it succeeds and the stored progress drops to 10. -/
theorem C3_counterexample :
    procAnalysisRow.status = "processing" ∧
    procAnalysisRow.progress_percentage = 50 ∧
    (updateAnalysis storeWithActive "a1" { progress_percentage := some 10 } 7).1.success = true ∧
    (getAnalysis (updateAnalysis storeWithActive "a1" { progress_percentage := some 10 } 7).2 "a1").map
      (fun r => r.progress_percentage) = some 10 := by
  decide

/-- Claim C3 amended: `updateAnalysis` applies a supplied
`progress_percentage` verbatim with no monotonicity guard — the stored
value after a successful update equals the supplied value, which may be
lower than the previous one; the range 0–100 is enforced only by the
database CHECK constraint, which rejects out-of-range payloads wholesale
(so stored values do stay within 0–100). -/
theorem C3_amended (s : Store) (id : String) (u : AnalysisUpdate) (now : Nat)
    (hwf : s.analyses.all progressCheck = true) :
    (updateAnalysis s id u now).2.analyses.all progressCheck = true ∧
    (∀ p r, u.progress_percentage = some p → 0 ≤ p → p ≤ 100 →
      getAnalysis s id = some r →
      getAnalysis (updateAnalysis s id u now).2 id = some (applyUpdate r u now) ∧
      (applyUpdate r u now).progress_percentage = p) := by
  refine ⟨updateAnalysis_preserves_check s id u now hwf, ?_⟩
  intro p r hp h0 h100 hget
  have hok : ∀ x ∈ s.analyses, x.id = id → progressCheck (applyUpdate x u now) = true := by
    intro x hx _
    simp [progressCheck, applyUpdate, hp, h0, h100]
  exact ⟨getAnalysis_after_update s id u now r hok hget, by simp [applyUpdate, hp]⟩

/-- Claim C3 witness: the amended statement instantiated on the
concrete store — an in-range update to progress 60 is stored
verbatim. -/
theorem C3_witness :
    getAnalysis (updateAnalysis storeWithActive "a1" { progress_percentage := some 60 } 7).2 "a1"
      = some (applyUpdate procAnalysisRow { progress_percentage := some 60 } 7) ∧
    (applyUpdate procAnalysisRow { progress_percentage := some 60 } 7).progress_percentage = 60 := by
  exact (C3_amended storeWithActive "a1" { progress_percentage := some 60 } 7 (by decide)).2
    60 procAnalysisRow rfl (by decide) (by decide) (by decide)

/-! ### C4: updates against terminal states -/

/-- Claim C4 counterexample: analysis `a1` is `completed` (terminal);
an update requesting `status: 'processing'` does not fail with
`InvalidTransition` — it succeeds and the stored job is changed. -/
theorem C4_counterexample :
    isTerminalStatus completedRow.status = true ∧
    (updateAnalysis storeCompleted "a1" { status := some "processing" } 9).1.success = true ∧
    getAnalysis (updateAnalysis storeCompleted "a1" { status := some "processing" } 9).2 "a1" ≠
      some completedRow ∧
    (getAnalysis (updateAnalysis storeCompleted "a1" { status := some "processing" } 9).2 "a1").map
      (fun r => r.status) = some "processing" := by
  decide

/-- Claim C4 amended: `updateAnalysis` performs no state-machine
validation at all — an update against a job in a terminal state
succeeds (whenever the CHECK constraint passes) and overwrites the
stored fields, instead of failing with `InvalidTransition` and leaving
the job unchanged. -/
theorem C4_amended (s : Store) (id : String) (u : AnalysisUpdate) (now : Nat) (r : AnalysisRow)
    (_hterm : isTerminalStatus r.status = true)
    (hget : getAnalysis s id = some r)
    (hok : ∀ x ∈ s.analyses, x.id = id → progressCheck (applyUpdate x u now) = true) :
    (updateAnalysis s id u now).1.success = true ∧
    getAnalysis (updateAnalysis s id u now).2 id = some (applyUpdate r u now) := by
  exact ⟨(updateAnalysis_success s id u now hok).1,
         getAnalysis_after_update s id u now r hok hget⟩

/-- Claim C4 witness: the amended statement instantiated on the store
whose only analysis is `completed`. -/
theorem C4_witness :
    (updateAnalysis storeCompleted "a1" { status := some "processing" } 9).1.success = true ∧
    getAnalysis (updateAnalysis storeCompleted "a1" { status := some "processing" } 9).2 "a1"
      = some (applyUpdate completedRow { status := some "processing" } 9) := by
  exact C4_amended storeCompleted "a1" { status := some "processing" } 9 completedRow
    (by decide) (by decide) (by decide)

/-! ### C5: structural validation of the engine result -/

/-- Claim C5 counterexample: the result stored by `triggerProcessing`
lacks the required `tactical_analysis`, `player_evaluations` and
`confidence_scores` sections (the spec's structural contract evaluates
to `false` on it), yet the job is taken to `completed` with that very
result stored — it is not routed through `fail`. -/
theorem C5_counterexample :
    specStructuralContract mockResults = false ∧
    (getAnalysis (triggerProcessing storeWithActive "a1" 5 6 StepOutcome.ok).1 "a1").map
      (fun r => (r.status, r.openstarlab_results)) = some ("completed", some mockResults) := by
  decide

/-- Claim C5 amended: `triggerProcessing` performs no structural
validation whatsoever — its success path unconditionally marks the job
`completed` and stores the result, even though that result fails the
spec's structural contract. -/
theorem C5_amended (s : Store) (id : String) (tStart tDone : Nat) (r : AnalysisRow)
    (hwf : s.analyses.all progressCheck = true)
    (hget : getAnalysis s id = some r) :
    specStructuralContract mockResults = false ∧
    getAnalysis (triggerProcessing s id tStart tDone StepOutcome.ok).1 id =
      some (applyUpdate (applyUpdate r processingUpdate tStart) completionUpdate tDone) ∧
    (applyUpdate (applyUpdate r processingUpdate tStart) completionUpdate tDone).status
      = "completed" ∧
    (applyUpdate (applyUpdate r processingUpdate tStart) completionUpdate tDone).openstarlab_results
      = some mockResults := by
  have hwf1 := updateAnalysis_preserves_check s id processingUpdate tStart hwf
  have hok1 := check_ok_of_none s id processingUpdate tStart rfl hwf
  have h1 := getAnalysis_after_update s id processingUpdate tStart r hok1 hget
  have hok2 := check_ok_of_none (updateAnalysis s id processingUpdate tStart).2 id
    completionUpdate tDone rfl hwf1
  have h2 := getAnalysis_after_update (updateAnalysis s id processingUpdate tStart).2 id
    completionUpdate tDone _ hok2 h1
  exact ⟨rfl, by simpa [triggerProcessing] using h2, rfl, rfl⟩

/-- Claim C5 witness: the amended statement instantiated on the store
with the `processing` analysis `a1`. -/
theorem C5_witness :
    getAnalysis (triggerProcessing storeWithActive "a1" 5 6 StepOutcome.ok).1 "a1" =
      some (applyUpdate (applyUpdate procAnalysisRow processingUpdate 5) completionUpdate 6) := by
  exact (C5_amended storeWithActive "a1" 5 6 procAnalysisRow (by decide) (by decide)).2.1

/-! ### C6: what the completion path actually sets -/

/-- Claim C6 counterexample: after the full creation scenario for
video `v1` (insert, `processing`, completion), the job reports
`completed` — but its stored progress is 0, not 100, and
`completed_at` is never set. -/
theorem C6_counterexample :
    ((getAnalysis (createAnalysis store0 "a1" 1 2 "v1" "full_match" StepOutcome.ok).2.1 "a1").map
      (fun r => r.status)) = some "completed" ∧
    ¬(((getAnalysis (createAnalysis store0 "a1" 1 2 "v1" "full_match" StepOutcome.ok).2.1 "a1").map
        (fun r => r.progress_percentage)) = some 100 ∧
      ((getAnalysis (createAnalysis store0 "a1" 1 2 "v1" "full_match" StepOutcome.ok).2.1 "a1").map
        (fun r => r.completed_at.isSome)) = some true) := by
  decide

/-- Claim C6 amended: the completion path sets `status: 'completed'`
and stores the result payload (which `getAnalysis` then returns), but
it neither sets `progress_percentage` to 100 nor sets `completed_at` —
both keep whatever value they had before. -/
theorem C6_amended (s : Store) (id : String) (tStart tDone : Nat) (r : AnalysisRow)
    (hwf : s.analyses.all progressCheck = true)
    (hget : getAnalysis s id = some r) :
    ∃ r2, getAnalysis (triggerProcessing s id tStart tDone StepOutcome.ok).1 id = some r2 ∧
      r2.status = "completed" ∧
      r2.openstarlab_results = some mockResults ∧
      r2.progress_percentage = r.progress_percentage ∧
      r2.completed_at = r.completed_at := by
  have hwf1 := updateAnalysis_preserves_check s id processingUpdate tStart hwf
  have hok1 := check_ok_of_none s id processingUpdate tStart rfl hwf
  have h1 := getAnalysis_after_update s id processingUpdate tStart r hok1 hget
  have hok2 := check_ok_of_none (updateAnalysis s id processingUpdate tStart).2 id
    completionUpdate tDone rfl hwf1
  have h2 := getAnalysis_after_update (updateAnalysis s id processingUpdate tStart).2 id
    completionUpdate tDone _ hok2 h1
  exact ⟨applyUpdate (applyUpdate r processingUpdate tStart) completionUpdate tDone,
    by simpa [triggerProcessing] using h2, rfl, rfl, rfl, rfl⟩

/-- Claim C6 witness: the amended statement instantiated on the store
with the `processing` analysis `a1` at progress 50. -/
theorem C6_witness :
    ∃ r2, getAnalysis (triggerProcessing storeWithActive "a1" 5 6 StepOutcome.ok).1 "a1" = some r2 ∧
      r2.status = "completed" ∧
      r2.openstarlab_results = some mockResults ∧
      r2.progress_percentage = procAnalysisRow.progress_percentage ∧
      r2.completed_at = procAnalysisRow.completed_at := by
  exact C6_amended storeWithActive "a1" 5 6 procAnalysisRow (by decide) (by decide)

/-! ### C7: errorInfo on failed jobs -/

/-- Claim C7 counterexample: the background failure path marks `a1`
`failed` while leaving `error_message` empty — a Failed job without
any recorded error, so the claimed iff fails. -/
theorem C7_counterexample :
    ((getAnalysis (triggerProcessing storeWithActive "a1" 5 6 (StepOutcome.threw "engine error")).1 "a1").map
      (fun r => (r.status, r.error_message))) = some ("failed", none) := by
  decide

/-- Claim C7 amended: the background failure path of
`triggerProcessing` writes only `status: 'failed'` (plus
`updated_at`); it never records any error, so a job it marks Failed
carries no `error_message` (the field keeps its prior value, `none`
for every job this layer created). -/
theorem C7_amended (s : Store) (id : String) (tStart tDone : Nat) (msg : String) (r : AnalysisRow)
    (hwf : s.analyses.all progressCheck = true)
    (hget : getAnalysis s id = some r)
    (herr : r.error_message = none) :
    getAnalysis (triggerProcessing s id tStart tDone (StepOutcome.threw msg)).1 id =
      some (applyUpdate r failureUpdate tStart) ∧
    (applyUpdate r failureUpdate tStart).status = "failed" ∧
    (applyUpdate r failureUpdate tStart).error_message = none := by
  have hok := check_ok_of_none s id failureUpdate tStart rfl hwf
  have h1 := getAnalysis_after_update s id failureUpdate tStart r hok hget
  refine ⟨by simpa [triggerProcessing] using h1, rfl, ?_⟩
  simpa [applyUpdate, failureUpdate, updOpt] using herr

/-- Claim C7 witness: the amended statement instantiated on the store
with the `processing` analysis `a1`. -/
theorem C7_witness :
    getAnalysis (triggerProcessing storeWithActive "a1" 5 6 (StepOutcome.threw "boom")).1 "a1" =
      some (applyUpdate procAnalysisRow failureUpdate 5) ∧
    (applyUpdate procAnalysisRow failureUpdate 5).status = "failed" ∧
    (applyUpdate procAnalysisRow failureUpdate 5).error_message = none := by
  exact C7_amended storeWithActive "a1" 5 6 "boom" procAnalysisRow
    (by decide) (by decide) (by decide)

/-! ### C8: automatic retry on transient errors -/

/-- Claim C8 counterexample: when the processing step fails with a
`TransientEngineError` classification, no retry happens — the run
performs exactly one processing pass and the job ends `failed`, not
`completed` after two invocations. -/
theorem C8_counterexample :
    (triggerProcessing storeWithActive "a1" 5 6 (StepOutcome.threw "TransientEngineError")).2 = 1 ∧
    ((getAnalysis (triggerProcessing storeWithActive "a1" 5 6 (StepOutcome.threw "TransientEngineError")).1 "a1").map
      (fun r => r.status)) = some "failed" := by
  decide

/-- Claim C8 amended: `triggerProcessing` contains no retry logic for
any failure classification — every run performs exactly one processing
pass, and a run whose step threw (whatever the message, including
`TransientEngineError`) leaves the job `failed`. -/
theorem C8_amended (s : Store) (id : String) (tStart tDone : Nat) (msg : String) (r : AnalysisRow)
    (hwf : s.analyses.all progressCheck = true)
    (hget : getAnalysis s id = some r) :
    (∀ outcome, (triggerProcessing s id tStart tDone outcome).2 = 1) ∧
    (getAnalysis (triggerProcessing s id tStart tDone (StepOutcome.threw msg)).1 id).map
      (fun row => row.status) = some "failed" := by
  constructor
  · intro outcome
    cases outcome <;> rfl
  · have hok := check_ok_of_none s id failureUpdate tStart rfl hwf
    have h1 := getAnalysis_after_update s id failureUpdate tStart r hok hget
    simp only [triggerProcessing]
    rw [h1]
    rfl

/-- Claim C8 witness: the amended statement instantiated on the store
with the `processing` analysis `a1` and a transient classification. -/
theorem C8_witness :
    (triggerProcessing storeWithActive "a1" 5 6 StepOutcome.ok).2 = 1 ∧
    (getAnalysis (triggerProcessing storeWithActive "a1" 5 6 (StepOutcome.threw "TransientEngineError-2")).1 "a1").map
      (fun row => row.status) = some "failed" := by
  have h := C8_amended storeWithActive "a1" 5 6 "TransientEngineError-2" procAnalysisRow
    (by decide) (by decide)
  exact ⟨h.1 StepOutcome.ok, h.2⟩

/-! ### C9: list queries return newest first -/

/-- Claim C9: `getAnalyses` and `getExports` (with or without the
`analysis_id` filter) return rows in non-increasing order of
`created_at` — newest first, as `order('created_at', { ascending:
false })` guarantees. -/
theorem C9_newestFirst (s : Store) (analysisId : Option String) :
    (getAnalyses s).Pairwise (fun a b => b.created_at ≤ a.created_at) ∧
    (getExports s analysisId).Pairwise (fun a b => b.created_at ≤ a.created_at) := by
  constructor
  · exact List.sorted_insertionSort analysisNewerFirst s.analyses
  · have hs : (List.insertionSort exportNewerFirst s.exports).Pairwise exportNewerFirst :=
      List.sorted_insertionSort exportNewerFirst s.exports
    unfold getExports
    cases analysisId with
    | none => exact hs
    | some aid => exact List.Pairwise.sublist (List.filter_sublist _) hs

/-! ### C10: downloadExport gating -/

/-- Claim C10: `downloadExport` never modifies the store; it can hand
out a URL only when the export record exists, is `completed` and has a
`file_path`; an unknown id, or a record in any other status or without
a file path, yields `success = false` with an error and no URL. -/
theorem C10_download (s : Store) (sign : String → Option String) (exportId : String) :
    (downloadExport s sign exportId).2 = s ∧
    ((downloadExport s sign exportId).1.url.isSome = true →
      ∃ r, getExport s exportId = some r ∧ r.status = "completed" ∧ r.file_path.isSome = true ∧
        (downloadExport s sign exportId).1.success = true) ∧
    (getExport s exportId = none →
      (downloadExport s sign exportId).1.success = false ∧
      (downloadExport s sign exportId).1.url = none ∧
      (downloadExport s sign exportId).1.error.isSome = true) ∧
    (∀ r, getExport s exportId = some r →
      ¬(r.status = "completed" ∧ r.file_path.isSome = true) →
      (downloadExport s sign exportId).1.success = false ∧
      (downloadExport s sign exportId).1.url = none ∧
      (downloadExport s sign exportId).1.error.isSome = true) := by
  unfold downloadExport
  cases hg : getExport s exportId with
  | none => simp
  | some r =>
    cases hp : r.file_path with
    | none => simp [hp]
    | some p =>
      by_cases hst : r.status = "completed"
      · cases hsign : sign p with
        | none => simp [hp, hst, hsign]
        | some u => simp [hp, hst, hsign]
      · simp [hp, hst]

/-- Claim C10 witness: the gating theorem instantiated on the concrete
store — the still-`pending` export `e1` yields no URL and an error,
and the store is untouched. -/
theorem C10_witness :
    (downloadExport storeExports (fun p => some ("signed:" ++ p)) "e1").1.success = false ∧
    (downloadExport storeExports (fun p => some ("signed:" ++ p)) "e1").1.url = none ∧
    (downloadExport storeExports (fun p => some ("signed:" ++ p)) "e1").2 = storeExports := by
  have h := C10_download storeExports (fun p => some ("signed:" ++ p)) "e1"
  refine ⟨?_, ?_, h.1⟩
  · exact (h.2.2.2 pendingExportRow (by decide) (by decide)).1
  · exact (h.2.2.2 pendingExportRow (by decide) (by decide)).2.1

end PropterOptimis
